import Mathlib

/-!
Verification of the company-news-monitoring service (src/upsonicai.py):
a FastAPI shim with one search-adapter tool (SerpAPITool.search) and one
POST handler (get_company_news). The agent runtime is opaque; its result
(news_task.response after news_agent.do) enters the model as a parameter.
-/

/-- Article schema `News(title, url, snippet)` from the source. -/
structure News where
  title : String
  url : String
  snippet : String
deriving Repr, DecidableEq

/-- `NewsResponse`: the structured response schema handed to the agent. -/
structure NewsResponse where
  articles : List News
deriving Repr, DecidableEq

/-- Request model `CompanyInput(company_name: str)`. -/
structure CompanyInput where
  company_name : String
deriving Repr, DecidableEq

/-- `fastapi.HTTPException(status_code, detail)`. -/
structure HTTPException where
  status_code : Nat
  detail : String
deriving Repr, DecidableEq

/-- One entry of the upstream JSON's "organic" list. Each of the three
fields the adapter reads may be absent (`result.get` with a default). -/
structure SearchResult where
  title : Option String
  link : Option String
  snippet : Option String
deriving Repr, DecidableEq

/-- The upstream HTTP response as the adapter observes it: the status code,
the raw body (`response.text`), and the parse of the body's "organic" key
(`response.json().get("organic", [])`; `none` when the key is absent). -/
structure HttpResponse where
  status_code : Nat
  text : String
  organic : Option (List SearchResult)
deriving Repr, DecidableEq

/-- A record of one outbound POST the adapter issues (url and query payload;
the json.dumps body encoding is not modelled, no claim depends on it). -/
structure NetworkRequest where
  url : String
  query : String
deriving Repr, DecidableEq

/-- The per-entry mapping in the adapter's list comprehension:
`News(title=result.get("title", "No Title"), url=result.get("link", "#"),
snippet=result.get("snippet", "No Description"))`. -/
def newsOfResult (result : SearchResult) : News :=
  { title := result.title.getD "No Title"
    url := result.link.getD "#"
    snippet := result.snippet.getD "No Description" }

/-- `SerpAPITool.search`. `api_key` is `os.getenv("SERPAPI_API_KEY")`
(`none` when unset); `response` is the upstream answer the transport would
deliver if the POST is issued. The first component is the list of outbound
requests actually performed, so "no network call" is `[]`. Python's
`if not api_key` is falsy for both `None` and the empty string, hence the
`getD "" = ""` test. -/
def SerpAPITool.search (api_key : Option String) (query : String)
    (response : HttpResponse) :
    List NetworkRequest × Except HTTPException (List News) :=
  if api_key.getD "" = "" then
    ([], Except.error ⟨500, "SerpAPI API Key not found!"⟩)
  else
    let req : NetworkRequest := ⟨"https://google.serper.dev/search", query⟩
    if response.status_code = 200 then
      let search_results := response.organic.getD []
      ([req], Except.ok ((search_results.take 10).map newsOfResult))
    else
      ([req], Except.error ⟨500, "SerpAPI Request Failed: " ++ response.text⟩)

/-- The success payload of the POST handler:
`{"company_name": ..., "articles": ...}`. -/
structure NewsReport where
  company_name : String
  articles : List News
deriving Repr, DecidableEq

/-- The handler body of `POST /get-company-news/` after validation.
`agent_response` is `news_task.response` once `news_agent.do` returns;
the opaque agent either produces a structured `NewsResponse` or nothing.
`if not news_data` is truthy exactly for the absent response. -/
def get_company_news (input_data : CompanyInput)
    (agent_response : Option NewsResponse) : Except HTTPException NewsReport :=
  match agent_response with
  | none => Except.error ⟨500, "Failed to fetch company news."⟩
  | some news_data => Except.ok ⟨input_data.company_name, news_data.articles⟩

/-- The task description string built by the handler. -/
def task_description (input_data : CompanyInput) : String :=
  "Fetch the latest news about " ++ input_data.company_name ++ "."

/-- A JSON value of a request body field, as pydantic sees it. -/
inductive JsonValue where
  | str : String → JsonValue
  | num : Int → JsonValue
  | null : JsonValue
deriving Repr, DecidableEq

/-- Field lookup in a JSON object body. -/
def lookupField (body : List (String × JsonValue)) (k : String) :
    Option JsonValue :=
  (body.find? (fun p => p.1 == k)).map Prod.snd

/-- Pydantic validation of the request body against `CompanyInput`:
the field `company_name` must be present and be a string (any string,
the model declares a bare `str` with no length constraint). A missing
field or a non-string value is a 422 validation error raised before
the handler body runs. -/
def validateCompanyInput (body : List (String × JsonValue)) :
    Except HTTPException CompanyInput :=
  match lookupField body "company_name" with
  | some (JsonValue.str s) => Except.ok ⟨s⟩
  | some _ => Except.error ⟨422, "Input should be a valid string"⟩
  | none => Except.error ⟨422, "Field required"⟩

/-- Trace of one `POST /get-company-news/` request: whether the handler
body ran (and hence `news_agent.do` was invoked — the search adapter is
reachable only as a tool of that agent call), and the HTTP outcome. -/
structure EndpointTrace where
  agent_invoked : Bool
  result : Except HTTPException NewsReport
deriving Repr

/-- The full endpoint: FastAPI validates the body against `CompanyInput`
first; only on success does the handler run (constructing the task and
invoking the agent). -/
def post_get_company_news (body : List (String × JsonValue))
    (agent_response : Option NewsResponse) : EndpointTrace :=
  match validateCompanyInput body with
  | Except.error e => ⟨false, Except.error e⟩
  | Except.ok input_data => ⟨true, get_company_news input_data agent_response⟩

/-! ## Concrete inputs used by witnesses and counterexamples -/

/-- A fixed 12-item upstream result list. -/
def sampleResults : List SearchResult :=
  (List.range 12).map (fun i =>
    ⟨some ("T" ++ toString i), some ("U" ++ toString i), some ("S" ++ toString i)⟩)

/-- A concrete upstream entry with the "link" field absent. -/
def missingLinkEntry : SearchResult := ⟨some "T", none, some "S"⟩

/-- A concrete agent-produced article list with more than 10 entries. -/
def elevenArticles : List News :=
  List.replicate 11 ⟨"Title", "http://example.com", "Snippet"⟩

/-- A concrete upstream entry whose "title" field is present but empty. -/
def emptyTitleEntry : SearchResult := ⟨some "", some "http://x", some "S"⟩

/-! ## Theorems -/

/-- C1: For every upstream search response with HTTP status 200, the search
adapter returns the Articles built from at most the first 10 entries of the
response's result list, in the same order as the upstream list (the output
is exactly `newsOfResult` mapped over `results.take 10`). -/
theorem serp_search_takes_first_ten (key query : String) (resp : HttpResponse)
    (results : List SearchResult) (hk : key ≠ "")
    (h200 : resp.status_code = 200) (horg : resp.organic = some results) :
    (SerpAPITool.search (some key) query resp).2 =
      Except.ok ((results.take 10).map newsOfResult) := by
  simp [SerpAPITool.search, hk, h200, horg]

/-- C1 witness: on a concrete 12-item upstream list the adapter returns
exactly the first 10 items, in order. -/
theorem serp_search_takes_first_ten_witness :
    sampleResults.length = 12 ∧
    (SerpAPITool.search (some "k") "q" ⟨200, "", some sampleResults⟩).2 =
      Except.ok ((sampleResults.take 10).map newsOfResult) ∧
    ((sampleResults.take 10).map newsOfResult).length = 10 :=
  ⟨by decide,
   serp_search_takes_first_ten "k" "q" ⟨200, "", some sampleResults⟩
     sampleResults (by decide) rfl rfl,
   by decide⟩

/-- C2: every entry processed by the adapter has missing "title", "link",
"snippet" fields replaced by the placeholders "No Title", "#",
"No Description": the output is newsOfResult applied entrywise, and
newsOfResult substitutes exactly those placeholders for absent fields. -/
theorem serp_search_placeholder_fields (key query : String)
    (resp : HttpResponse) (results : List SearchResult) (hk : key ≠ "")
    (h200 : resp.status_code = 200) (horg : resp.organic = some results) :
    (SerpAPITool.search (some key) query resp).2 =
      Except.ok ((results.take 10).map newsOfResult) ∧
    ∀ r : SearchResult,
      (r.title = none → (newsOfResult r).title = "No Title") ∧
      (r.link = none → (newsOfResult r).url = "#") ∧
      (r.snippet = none → (newsOfResult r).snippet = "No Description") := by
  refine ⟨by simp [SerpAPITool.search, hk, h200, horg], ?_⟩
  intro r
  refine ⟨?_, ?_, ?_⟩ <;> intro h <;> simp [newsOfResult, h]

/-- C2 witness: at a concrete upstream entry missing "link", the adapter's
output Article has url "#". -/
theorem serp_search_placeholder_fields_witness :
    (SerpAPITool.search (some "k") "q" ⟨200, "", some [missingLinkEntry]⟩).2 =
      Except.ok (([missingLinkEntry].take 10).map newsOfResult) ∧
    (newsOfResult missingLinkEntry).url = "#" :=
  ⟨(serp_search_placeholder_fields "k" "q" ⟨200, "", some [missingLinkEntry]⟩
      [missingLinkEntry] (by decide) rfl rfl).1,
   ((serp_search_placeholder_fields "k" "q" ⟨200, "", some [missingLinkEntry]⟩
      [missingLinkEntry] (by decide) rfl rfl).2 missingLinkEntry).2.1 rfl⟩

/-- C3: when SERPAPI_API_KEY is absent from the environment the adapter
raises HTTP 500 with the fixed message "SerpAPI API Key not found!" and
issues no outbound network request (empty request trace), whatever the
transport would have answered. -/
theorem serp_search_missing_key (query : String) (resp : HttpResponse) :
    SerpAPITool.search none query resp =
      ([], Except.error ⟨500, "SerpAPI API Key not found!"⟩) := by
  simp [SerpAPITool.search]

/-- C4: for every upstream response whose status is not a success (2xx)
status, the adapter fails with a status-500 error whose detail contains the
raw upstream response body as a suffix. -/
theorem serp_search_upstream_error (key query : String) (resp : HttpResponse)
    (hk : key ≠ "")
    (hs : ¬ (200 ≤ resp.status_code ∧ resp.status_code < 300)) :
    ∃ e : HTTPException,
      (SerpAPITool.search (some key) query resp).2 = Except.error e ∧
      e.status_code = 500 ∧ ∃ p : String, e.detail = p ++ resp.text := by
  have h200 : resp.status_code ≠ 200 := by
    intro h; exact hs ⟨by omega, by omega⟩
  exact ⟨⟨500, "SerpAPI Request Failed: " ++ resp.text⟩,
    by simp [SerpAPITool.search, hk, h200], rfl,
    "SerpAPI Request Failed: ", rfl⟩

/-- C4 witness: a concrete upstream 503 response yields an error carrying
the original response text. -/
theorem serp_search_upstream_error_witness :
    ("k" ≠ "" ∧ ¬ (200 ≤ 503 ∧ 503 < 300)) ∧
    ∃ e : HTTPException,
      (SerpAPITool.search (some "k") "q" ⟨503, "Service Unavailable", none⟩).2 =
        Except.error e ∧
      e.status_code = 500 ∧
      ∃ p : String, e.detail = p ++ "Service Unavailable" :=
  ⟨⟨by decide, by decide⟩,
   serp_search_upstream_error "k" "q" ⟨503, "Service Unavailable", none⟩
     (by decide) (by decide)⟩

/-- C5: when the agent invocation yields no structured response, the
handler raises HTTP 500 with the generic message
"Failed to fetch company news." and returns no success report. -/
theorem get_company_news_empty_response (input_data : CompanyInput) :
    get_company_news input_data none =
      Except.error ⟨500, "Failed to fetch company news."⟩ := rfl

/-- C6 counterexample: a body with a present but empty company_name is NOT
rejected by the request schema (a bare `str` field accepts the empty
string); validation succeeds and the handler body runs, so the agent IS
invoked for such a request. -/
theorem empty_company_name_accepted :
    validateCompanyInput [("company_name", JsonValue.str "")] =
      Except.ok ⟨""⟩ ∧
    (post_get_company_news [("company_name", JsonValue.str "")]
        none).agent_invoked = true :=
  ⟨rfl, rfl⟩

/-- C6 (amended): a body with the company_name field missing is rejected by
request-schema validation (422) before task construction, so the agent (and
hence the search adapter, reachable only as its tool) is never invoked; a
present-but-empty company_name, however, passes validation. -/
theorem missing_company_name_rejected (body : List (String × JsonValue))
    (h : lookupField body "company_name" = none) :
    validateCompanyInput body = Except.error ⟨422, "Field required"⟩ ∧
    ∀ agent_response : Option NewsResponse,
      (post_get_company_news body agent_response).agent_invoked = false := by
  have hv : validateCompanyInput body = Except.error ⟨422, "Field required"⟩ := by
    simp [validateCompanyInput, h]
  exact ⟨hv, fun agent_response => by simp [post_get_company_news, hv]⟩

/-- C6 witness: a concrete body without the company_name field is rejected
and the agent is not invoked. -/
theorem missing_company_name_rejected_witness :
    lookupField [("other", JsonValue.str "x")] "company_name" = none ∧
    validateCompanyInput [("other", JsonValue.str "x")] =
      Except.error ⟨422, "Field required"⟩ ∧
    (post_get_company_news [("other", JsonValue.str "x")]
        none).agent_invoked = false :=
  ⟨rfl,
   (missing_company_name_rejected [("other", JsonValue.str "x")] rfl).1,
   (missing_company_name_rejected [("other", JsonValue.str "x")] rfl).2 none⟩

/-- C7 counterexample: the handler returns the agent's articles verbatim,
with no truncation: for the non-empty company name "Acme" and an agent
response holding 11 articles, the endpoint returns a success whose articles
list has length 11 > 10. -/
theorem success_response_with_eleven_articles :
    (post_get_company_news [("company_name", JsonValue.str "Acme")]
        (some ⟨elevenArticles⟩)).result =
      Except.ok ⟨"Acme", elevenArticles⟩ ∧
    elevenArticles.length = 11 := ⟨rfl, rfl⟩

/-- Any successful output of the search adapter has at most 10 articles. -/
theorem search_ok_articles_le_ten (api_key : Option String) (query : String)
    (resp : HttpResponse) (arts : List News)
    (h : (SerpAPITool.search api_key query resp).2 = Except.ok arts) :
    arts.length ≤ 10 := by
  unfold SerpAPITool.search at h
  by_cases hk : api_key.getD "" = ""
  · simp [hk] at h
  · by_cases hs : resp.status_code = 200
    · simp [hk, hs] at h
      subst h
      rw [List.length_take]
      exact min_le_left _ _
    · simp [hk, hs] at h

/-- C7 (amended): a successful response's articles list is exactly the
agent's structured response's articles list, unmodified; the 0–10 bound is
not enforced by the handler but holds whenever those articles are a
successful output of the search adapter. -/
theorem handler_articles_bounded_by_adapter (input_data : CompanyInput)
    (resp : NewsResponse) (api_key : Option String) (query : String)
    (upstream : HttpResponse)
    (hagent : (SerpAPITool.search api_key query upstream).2 =
      Except.ok resp.articles) :
    get_company_news input_data (some resp) =
      Except.ok ⟨input_data.company_name, resp.articles⟩ ∧
    resp.articles.length ≤ 10 :=
  ⟨rfl, search_ok_articles_le_ten api_key query upstream resp.articles hagent⟩

/-- C7 witness: with the agent's articles taken from a concrete adapter
output, the success response holds those articles and their count is
at most 10. -/
theorem handler_articles_bounded_by_adapter_witness :
    get_company_news ⟨"Acme"⟩ (some ⟨[]⟩) = Except.ok ⟨"Acme", []⟩ ∧
    (NewsResponse.mk []).articles.length ≤ 10 :=
  handler_articles_bounded_by_adapter ⟨"Acme"⟩ ⟨[]⟩ (some "k") "q"
    ⟨200, "", some []⟩ (by simp [SerpAPITool.search])

/-- C8 counterexample: an upstream entry whose "title" is present but empty
yields an adapter article with an empty title, and the handler forwards it
unmodified, so a successful response can contain an article whose title is
the empty string. -/
theorem empty_title_reaches_success_response :
    (SerpAPITool.search (some "k") "q" ⟨200, "", some [emptyTitleEntry]⟩).2 =
      Except.ok [⟨"", "http://x", "S"⟩] ∧
    get_company_news ⟨"Acme"⟩ (some ⟨[⟨"", "http://x", "S"⟩]⟩) =
      Except.ok ⟨"Acme", [⟨"", "http://x", "S"⟩]⟩ ∧
    (News.mk "" "http://x" "S").title = "" := by
  refine ⟨?_, rfl, rfl⟩
  simp [SerpAPITool.search, newsOfResult, emptyTitleEntry]

/-- An `Option.getD` with a non-empty default is non-empty as long as the
stored value, if any, is non-empty. -/
theorem getD_ne_empty (o : Option String) (d : String) (hd : d ≠ "")
    (ho : o ≠ some "") : o.getD d ≠ "" := by
  cases o with
  | none => simpa using hd
  | some t =>
    intro h
    exact ho (by simp [Option.getD] at h; rw [h])

/-- C8 (amended): every article in a successful adapter output has
non-empty title, url and snippet provided the upstream entries never supply
a field as an empty string: omitted fields become non-empty placeholders,
but a field supplied as the empty string passes through empty. -/
theorem search_articles_nonempty_fields (key query : String)
    (resp : HttpResponse) (results : List SearchResult) (arts : List News)
    (hk : key ≠ "") (h200 : resp.status_code = 200)
    (horg : resp.organic = some results)
    (hout : (SerpAPITool.search (some key) query resp).2 = Except.ok arts)
    (hclean : ∀ r ∈ results,
      r.title ≠ some "" ∧ r.link ≠ some "" ∧ r.snippet ≠ some "") :
    ∀ a ∈ arts, a.title ≠ "" ∧ a.url ≠ "" ∧ a.snippet ≠ "" := by
  have harts : List.take 10 (results.map newsOfResult) = arts := by
    have h := hout
    simp [SerpAPITool.search, hk, h200, horg] at h
    exact h
  subst harts
  intro a ha
  rcases List.mem_map.mp (List.take_subset _ _ ha) with ⟨r, hr, rfl⟩
  obtain ⟨ht, hl, hsnip⟩ := hclean r hr
  exact ⟨getD_ne_empty r.title "No Title" (by decide) ht,
    getD_ne_empty r.link "#" (by decide) hl,
    getD_ne_empty r.snippet "No Description" (by decide) hsnip⟩

/-- C8 witness: from a concrete upstream entry with no empty-string fields
(the title omitted), the adapter article in the successful output has
non-empty title, url and snippet. -/
theorem search_articles_nonempty_fields_witness :
    (News.mk "No Title" "http://x" "S").title ≠ "" ∧
    (News.mk "No Title" "http://x" "S").url ≠ "" ∧
    (News.mk "No Title" "http://x" "S").snippet ≠ "" :=
  search_articles_nonempty_fields "k" "q"
    ⟨200, "", some [⟨none, some "http://x", some "S"⟩]⟩
    [⟨none, some "http://x", some "S"⟩] [⟨"No Title", "http://x", "S"⟩]
    (by decide) rfl rfl (by simp [SerpAPITool.search, newsOfResult])
    (by decide) ⟨"No Title", "http://x", "S"⟩ (by simp)

/-- C9: whenever the request body carries company_name s and the endpoint
returns successfully, the response's company_name equals s character for
character (the handler echoes input_data.company_name). -/
theorem response_echoes_company_name (body : List (String × JsonValue))
    (s : String) (resp : NewsResponse)
    (h : lookupField body "company_name" = some (JsonValue.str s)) :
    (post_get_company_news body (some resp)).result =
      Except.ok ⟨s, resp.articles⟩ := by
  simp [post_get_company_news, validateCompanyInput, h, get_company_news]

/-- C9 witness: a concrete request with company_name "Acme" gets a success
response whose company_name is "Acme". -/
theorem response_echoes_company_name_witness :
    lookupField [("company_name", JsonValue.str "Acme")] "company_name" =
      some (JsonValue.str "Acme") ∧
    (post_get_company_news [("company_name", JsonValue.str "Acme")]
        (some ⟨[]⟩)).result = Except.ok ⟨"Acme", []⟩ :=
  ⟨rfl,
   response_echoes_company_name [("company_name", JsonValue.str "Acme")]
     "Acme" ⟨[]⟩ rfl⟩

/-- C10: a status-200 upstream response whose JSON body lacks the "organic"
key makes the adapter return the empty article list rather than an error;
and the adapter's call succeeds exactly when the status is 200. -/
theorem search_missing_organic_defaults_empty (key query bodyText : String)
    (hk : key ≠ "") :
    (SerpAPITool.search (some key) query ⟨200, bodyText, none⟩).2 =
      Except.ok [] ∧
    ∀ resp : HttpResponse,
      (∃ arts, (SerpAPITool.search (some key) query resp).2 = Except.ok arts)
        ↔ resp.status_code = 200 := by
  constructor
  · simp [SerpAPITool.search, hk]
  · intro resp
    constructor
    · rintro ⟨arts, h⟩
      by_cases hs : resp.status_code = 200
      · exact hs
      · simp [SerpAPITool.search, hk, hs] at h
    · intro hs
      exact ⟨((resp.organic.getD []).take 10).map newsOfResult,
        by simp [SerpAPITool.search, hk, hs]⟩

/-- C10 witness: with a concrete key and a concrete 200 response with no
"organic" key, the adapter returns the empty collection. -/
theorem search_missing_organic_defaults_empty_witness :
    ("k" : String) ≠ "" ∧
    (SerpAPITool.search (some "k") "q" ⟨200, "irrelevant", none⟩).2 =
      Except.ok [] :=
  ⟨by decide,
   (search_missing_organic_defaults_empty "k" "q" "irrelevant" (by decide)).1⟩
